import Mathlib

/-!
# CallPilot — verification of the appointment-booking workflow

A shallow embedding of the CallPilot repository (Python) in Lean 4.

* Dictionaries with fixed keys become structures with `Option` fields
  (`none` = key absent or `None`).
* Python floats become exact rationals (`ℚ`); all the arithmetic the
  claims touch is exact in binary floating point, so results agree.
* Python truthiness (`if state.get("error")`, `if not slots`) is made
  explicit through small `truthy*` helpers: an absent key, `None`, `""`,
  `0.0` and `[]` are all falsy.
* External capabilities (provider directory, calendar backend, the
  negotiation phone call, the language model) are parameters of the
  step functions, mirroring the capability ports of the specification.
* ISO-8601 timestamps are compared as strings, exactly as the Python
  code compares them (both languages use lexicographic code-point order).
-/

namespace CallPilot

/-- A time slot (`{"start": ..., "end": ...}` in the source). -/
structure Slot where
  start : String
  «end» : String
deriving Repr, DecidableEq

/-- A provider record as returned by the directory
(`id`, `name`, `specialty`, `address`, `rating`, `distance_km`, `openings`).
`address`, `rating` and `distance_km` may be absent (`.get` with default
in the source); the remaining keys are accessed unconditionally. -/
structure Provider where
  id : String
  name : String
  specialty : String
  address : Option String := none
  rating : Option ℚ := none
  distance_km : Option ℚ := none
  openings : List Slot := []
deriving Repr, DecidableEq

/-- The `explain` sub-dictionary of a score result. -/
structure ScoreExplain where
  rating : ℚ
  distance_km : ℚ
  slot_start : String
deriving Repr, DecidableEq

/-- The dictionary returned by `tools/scoring.py: score`
(keys `total` and `explain` — and no others). -/
structure ScoreResult where
  total : ℚ
  explain : ScoreExplain
deriving Repr, DecidableEq

/-- The provider summary embedded in the final `result` payload by
`node_reserve_and_book` (`id`, `name`, `rating`, `distance_km`). -/
structure ProviderSummary where
  id : String
  name : String
  address : Option String := none
  rating : Option ℚ := none
  distance_km : Option ℚ := none
deriving Repr, DecidableEq

/-- The `result` payload assembled by `node_reserve_and_book` and
finalized by `node_done`.  Each key is optional: the failed payload has
only `status`, `error`, `transcript`; the success payload carries the
booking data as well. -/
structure ResultPayload where
  status : Option String := none
  error : Option String := none
  provider : Option ProviderSummary := none
  slot : Option Slot := none
  score : Option ScoreResult := none
  event_id : Option String := none
  transcript : Option (List String) := none
deriving Repr, DecidableEq

/-- A conversation turn (LangChain message): its text content and the
names of the tool calls it requests (empty for a plain answer). -/
structure Msg where
  content : String
  tool_calls : List String := []
deriving Repr, DecidableEq

/-- The `best_option` appointment summary the agent is asked to emit
(provider / slot / score), each part optional because the model may
omit keys. -/
structure BestOption where
  provider : Option ProviderSummary := none
  slot : Option Slot := none
  score : Option ℚ := none
deriving Repr, DecidableEq

/-- `node_agent` stores either the parsed JSON summary or, on parse
failure, the raw response text (`{"raw": resp.content}` in the source). -/
inductive AgentSummary where
  | parsed (b : BestOption)
  | raw (s : String)
deriving Repr, DecidableEq

/-- The JSON object produced by the extraction model in
`node_extract_preferences` (schema: `specialty`, `time_window`,
`radius_km`, `location_preference`, `provider_name`, `urgency`,
each possibly `null`). -/
structure Extracted where
  specialty : Option String := none
  time_window : Option String := none
  radius_km : Option ℚ := none
  location_preference : Option String := none
  provider_name : Option String := none
  urgency : Option String := none
deriving Repr, DecidableEq

/-- The workflow record (`CallState`, a `TypedDict` with `total=False`):
every field is optional; `transcript` and `messages` default to `[]`
because every access in the source is `state.get("transcript", [])`
(respectively treats a missing `messages` like an empty list). -/
structure CallState where
  specialty : Option String := none
  time_window : Option String := none
  radius_km : Option ℚ := none
  user_location : Option String := none
  user_text : Option String := none
  provider : Option Provider := none
  proposed_slots : Option (List Slot) := none
  chosen_slot : Option Slot := none
  calendar_ok : Option Bool := none
  reservation_ok : Option Bool := none
  event_id : Option String := none
  transcript : List String := []
  result : Option ResultPayload := none
  messages : List Msg := []
  best_option : Option AgentSummary := none
  result_text : Option String := none
  use_speech : Option Bool := none
  preferred_provider : Option String := none
  urgency : Option String := none
  error : Option String := none
deriving Repr, DecidableEq

/-! ## Python truthiness -/

/-- Truthiness of an optional string: absent, `None` and `""` are falsy. -/
def truthyStr : Option String → Bool
  | none => false
  | some s => !(s == "")

/-- Truthiness of an optional number: absent, `None` and `0.0` are falsy. -/
def truthyNum : Option ℚ → Bool
  | none => false
  | some q => !(q == 0)

/-- Lexicographic strict order on character lists (Python string `<`:
code-point order, a proper prefix is smaller). -/
def charsLt : List Char → List Char → Bool
  | [], [] => false
  | [], _ :: _ => true
  | _ :: _, [] => false
  | a :: as, b :: bs => a < b || (a == b && charsLt as bs)

/-- Python string `<=` (code-point lexicographic order). -/
def strLe (a b : String) : Bool := a == b || charsLt a.data b.data

/-- Python `str.strip()`: drop whitespace from both ends. -/
def pyStrip (s : String) : String :=
  String.mk (((s.data.dropWhile Char.isWhitespace).reverse.dropWhile
    Char.isWhitespace).reverse)

/-- Python `str.lower()` (ASCII). -/
def pyLower (s : String) : String := String.mk (s.data.map Char.toLower)

/-- Python `str.title()` restricted to ASCII: uppercase the first letter
of each alphabetic run, lowercase the rest. -/
def pyTitle (s : String) : String :=
  String.mk ((s.data.foldl
    (fun (acc : List Char × Bool) c =>
      if c.isAlpha then
        (acc.1 ++ [if acc.2 then c.toLower else c.toUpper], true)
      else (acc.1 ++ [c], false)) ([], false)).1)

/-- Python `round(x, 3)`: round to three decimal places.  (Python rounds
exact half-thousandths to even; no value in this development sits on
that boundary, so round-half-up is an adequate model.) -/
def round3 (q : ℚ) : ℚ := (round (q * 1000) : ℤ) / 1000

/-! ## `tools/scoring.py` -/

/-- `score(provider, slot)`: `rating * 2.0 + (1.0 / (1.0 + dist)) * 3.0`
rounded to three decimals, with `rating = provider.get("rating", 0)` and
`dist = provider.get("distance_km", 999)`, plus the `explain` record. -/
def score (provider : Provider) (slot : Slot) : ScoreResult :=
  let rating := provider.rating.getD 0
  let dist := provider.distance_km.getD 999
  let total := rating * 2 + (1 / (1 + dist)) * 3
  { total := round3 total
    explain := { rating := rating, distance_km := dist, slot_start := slot.start } }

/-! ## `tools/calendar.py` -/

/-- The hard-coded busy block of the MVP calendar stub. -/
def BUSY : List Slot := [{ start := "2026-02-10T15:00:00", «end» := "2026-02-10T16:00:00" }]

/-- The MVP overlap check: a slot is free iff for every busy block
`e <= b.start or s >= b.end` (string comparison of ISO timestamps). -/
def mvpFree (slot : Slot) : Bool :=
  BUSY.all fun b => strLe slot.«end» b.start || strLe b.«end» slot.start

/-- Outcome of one Google Calendar availability query
(`integrations/google_calendar.py: check_calendar_availability`):
the events listing succeeds with `n` events, the API raises `HttpError`,
the credentials file is missing (`FileNotFoundError`), or some other
exception escapes the function. -/
inductive GoogleCal where
  | events (n : Nat)
  | httpError
  | authMissing
  | failure
deriving Repr, DecidableEq

/-- `check_calendar_availability`: free iff no events in range; an
`HttpError` or a missing credentials file is caught inside the function
and reported as free (`return True`); any other exception propagates
(`none`). -/
def check_calendar_availability : GoogleCal → Option Bool
  | .events n => some (n == 0)
  | .httpError => some true
  | .authMissing => some true
  | .failure => none

/-- `check_calendar_free(slot)`.  `useGoogle` models the
`settings.use_google_apis` flag (Modelled from the spec: the `Settings`
dataclass in `src/callpilot/config.py` does not define this attribute,
though `tools/calendar.py` and `tools/providers.py` read it and the
tests set the `USE_GOOGLE_APIS` environment variable; the spec's §6
calendar port assumes it).  When the Google path raises, the `except`
clause falls through to the MVP busy-list check. -/
def check_calendar_free (useGoogle : Bool) (backend : GoogleCal) (slot : Slot) : Bool :=
  if useGoogle then
    match check_calendar_availability backend with
    | some b => b
    | none => mvpFree slot
  else mvpFree slot

/-! ## `adapters/receptionist_sim.py` -/

/-- Result of `simulate_receptionist_call`. -/
structure NegotiationResult where
  ok : Bool
  slots : List Slot
  transcript : List String
deriving Repr, DecidableEq

/-- `simulate_receptionist_call(provider, constraint)`: fixed narration
lines; no openings means `ok=False` with empty slots, otherwise the
first three openings are offered. -/
def simulate_receptionist_call (provider : Provider) (constraint : String) :
    NegotiationResult :=
  let openings := provider.openings
  let transcript :=
    ["[CALL] Calling " ++ provider.name ++ "...",
     "[RECEP] Hello, how can I help?",
     "[AGENT] I'd like to book an appointment. Constraint: " ++ constraint]
  if openings.isEmpty then
    { ok := false, slots := []
      transcript := transcript ++ ["[RECEP] Sorry, no availability."] }
  else
    let slots := openings.take 3
    { ok := true, slots := slots
      transcript := transcript ++
        ["[RECEP] We can do: " ++ String.intercalate ", " (slots.map (·.start)),
         "[AGENT] Great, let me confirm one moment."] }

/-- `reserve_slot(provider, slot)`: the MVP adapter always reports
success. -/
def reserve_slot (_provider : Provider) (_slot : Slot) : Bool := true

/-! ## `graph.py` — Local Pipeline steps

Each step is a function `CallState → CallState`; the capability ports it
invokes (directory search, calendar check, event creation) are explicit
parameters. -/

/-- The sort key of `node_pick_provider`:
`float(p.get("distance_km", 999))`. -/
def distKey (p : Provider) : ℚ := p.distance_km.getD 999

/-- Embeds `sorted(matches, key=lambda p: float(p.get("distance_km", 999)))[0]`:
Python's sort is stable, so the head of the sorted list is the first
element attaining the minimal key.  Implemented as a left-to-right scan
keeping the current best, replaced only on a strictly smaller key. -/
def pickClosest : Provider → List Provider → Provider
  | best, [] => best
  | best, p :: rest =>
      if distKey p < distKey best then pickClosest p rest else pickClosest best rest

/-- `node_pick_provider(state)` with the directory search as a
parameter. -/
def node_pick_provider (search : String → ℚ → String → List Provider)
    (state : CallState) : CallState :=
  let specialty := state.specialty.getD "dentist"
  let radius := state.radius_km.getD 5
  let user_location := state.user_location.getD "Berlin"
  match search specialty radius user_location with
  | [] => { state with error := some "No providers found in radius." }
  | m :: ms =>
      let provider := pickClosest m ms
      { state with
          provider := some provider
          transcript := state.transcript ++ ["[SYS] Selected provider: " ++ provider.name] }

/-- `node_call_provider(state)`: passes through on a (truthy) error,
errors when no provider is selected, otherwise runs the simulated
receptionist call, stores its slots and appends its transcript. -/
def node_call_provider (state : CallState) : CallState :=
  if truthyStr state.error then state
  else
    match state.provider with
    | none => { state with error := some "No provider selected" }
    | some provider =>
        let constraint := state.time_window.getD "this week"
        let res := simulate_receptionist_call provider constraint
        { state with
            proposed_slots := some res.slots
            transcript := state.transcript ++ res.transcript }

/-- `node_choose_slot(state)` with the calendar check as a parameter:
picks the first proposed slot the calendar accepts. -/
def node_choose_slot (isFree : Slot → Bool) (state : CallState) : CallState :=
  if truthyStr state.error then state
  else
    let slots := state.proposed_slots.getD []
    if slots.isEmpty then { state with error := some "Provider had no slots." }
    else
      match slots.find? isFree with
      | some s =>
          { state with
              chosen_slot := some s
              calendar_ok := some true
              transcript := state.transcript ++ ["[SYS] Calendar ok for " ++ s.start] }
      | none =>
          { state with
              calendar_ok := some false
              error := some "No proposed slot fits calendar." }

/-- `node_reserve_and_book(state)` with calendar-event creation as a
parameter (`createEvent title slot location`). -/
def node_reserve_and_book (createEvent : String → Slot → String → String)
    (state : CallState) : CallState :=
  if truthyStr state.error then state
  else
    match state.provider, state.chosen_slot with
    | some provider, some slot =>
        if !reserve_slot provider slot then
          { state with reservation_ok := some false, error := some "Reservation failed." }
        else
          let event_id := createEvent
            (pyTitle provider.specialty ++ " appointment - " ++ provider.name)
            slot
            (provider.address.getD provider.name)
          let sc := score provider slot
          let result : ResultPayload :=
            { provider := some
                { id := provider.id, name := provider.name
                  rating := provider.rating, distance_km := provider.distance_km }
              slot := some slot
              score := some sc
              event_id := some event_id }
          { state with
              reservation_ok := some true
              event_id := some event_id
              result := some result
              transcript := state.transcript ++ ["[SYS] Reserved + created event: " ++ event_id] }
    | _, _ => { state with error := some "Missing provider or slot" }

/-- `node_done(state)`: the finalization step. -/
def node_done (state : CallState) : CallState :=
  if truthyStr state.error && state.result.isNone then
    { state with
        result := some
          { status := some "failed", error := state.error
            transcript := some state.transcript } }
  else
    match state.result with
    | some r =>
        { state with
            result := some { r with status := some "success", transcript := some state.transcript } }
    | none =>
        { state with
            result := some { status := some "completed", transcript := some state.transcript } }

/-! ## `graph.py` — Agent Pipeline steps

The speech, language-model and JSON-parsing capabilities are parameters;
prompt construction is likewise passed in (per the spec's §1 it is an
external capability, not control logic). -/

/-- `node_listen_user(state)`: `heard` is the text obtained from stdin or
the speech-to-text service (`none` models `EOFError`, which leaves
`user_text = None` and prints `[USER] None`).  Only the transcript is
extended; no structured field changes. -/
def node_listen_user (heard : Option String) (state : CallState) : CallState :=
  { state with
      transcript := state.transcript ++ ["[USER] " ++ (heard.getD "None")] }

/-- `node_speak_user(state)`: a no-op unless speech is enabled;
`importErr` models a failing ElevenLabs import, `apiKey` the
`ELEVENLABS_API_KEY` environment variable.  On success the audio is
played and the state returned unchanged. -/
def node_speak_user (importErr : Option String) (apiKey : Option String)
    (state : CallState) : CallState :=
  if !(state.use_speech.getD false) then state
  else
    match importErr with
    | some e => { state with error := some ("ElevenLabs import failed: " ++ e) }
    | none =>
        match apiKey with
        | none => { state with error := some "Missing ELEVENLABS_API_KEY" }
        | some _ => state

/-- The updates dictionary accumulated by `node_extract_preferences`
before it is merged over the state (`{**state, **updates}`). -/
structure Updates where
  specialty : Option String := none
  time_window : Option String := none
  radius_km : Option ℚ := none
  user_location : Option String := none
  preferred_provider : Option String := none
  urgency : Option String := none
deriving Repr, DecidableEq

/-- `{**state, **updates}`: a key present in the updates wins. -/
def applyUpdates (state : CallState) (u : Updates) : CallState :=
  { state with
      specialty := if u.specialty.isSome then u.specialty else state.specialty
      time_window := if u.time_window.isSome then u.time_window else state.time_window
      radius_km := if u.radius_km.isSome then u.radius_km else state.radius_km
      user_location := if u.user_location.isSome then u.user_location else state.user_location
      preferred_provider :=
        if u.preferred_provider.isSome then u.preferred_provider else state.preferred_provider
      urgency := if u.urgency.isSome then u.urgency else state.urgency }

/-- The default-filling blocks of `node_extract_preferences` (used both
when no user text is present and when extraction fails): each of the
four request fields is set to its default when its current value is
falsy. -/
def defaultsFill (state : CallState) : CallState :=
  { state with
      specialty := if truthyStr state.specialty then state.specialty else some "dentist"
      time_window := if truthyStr state.time_window then state.time_window else some "this week"
      radius_km := if truthyNum state.radius_km then state.radius_km else some 5
      user_location :=
        if truthyStr state.user_location then state.user_location else some "Berlin" }

/-- Boolean contiguous-substring test on character lists (Python `in`
on strings). -/
def hasInfix : List Char → List Char → Bool
  | needle, [] => needle.isEmpty
  | needle, hay@(_ :: rest) => needle.isPrefixOf hay || hasInfix needle rest

/-- Whether the lowercased location preference mentions
`close`, `near` or `nearby` (`nearby` is subsumed by `near` but kept as
in the source). -/
def closeHint (locPref : String) : Bool :=
  let lp := pyLower locPref
  hasInfix "close".data lp.data || hasInfix "near".data lp.data
    || hasInfix "nearby".data lp.data

/-- The `updates` dictionary built by the successful-extraction branch
of `node_extract_preferences`: extracted values for fields not already
(truthily) set, the `close`/`near`/`nearby` radius cap, unconditional
`preferred_provider`/`urgency`, then defaults for required fields still
missing.  JSON field values are modelled post-conversion (`float(...)`
on `radius_km` is the identity on a number). -/
def extractUpdates (state : CallState) (ex : Extracted) : Updates :=
  let u : Updates := {}
  let u := if truthyStr ex.specialty && !truthyStr state.specialty then
      { u with specialty := ex.specialty } else u
  let u := if truthyStr ex.time_window && !truthyStr state.time_window then
      { u with time_window := ex.time_window } else u
  let u := if truthyNum ex.radius_km && !truthyNum state.radius_km then
      { u with radius_km := ex.radius_km } else u
  let u := if truthyStr ex.location_preference then
      (if closeHint (ex.location_preference.getD "") then
        { u with radius_km := some (min (state.radius_km.getD 5) 3) } else u)
    else u
  let u := if truthyStr ex.provider_name then
      { u with preferred_provider := ex.provider_name } else u
  let u := if truthyStr ex.urgency then { u with urgency := ex.urgency } else u
  let u := if !truthyStr u.specialty && !truthyStr state.specialty then
      { u with specialty := some "dentist" } else u
  let u := if !truthyStr u.time_window && !truthyStr state.time_window then
      { u with time_window := some "this week" } else u
  let u := if !truthyNum u.radius_km && !truthyNum state.radius_km then
      { u with radius_km := some 5 } else u
  let u := if !truthyStr u.user_location && !truthyStr state.user_location then
      { u with user_location := some "Berlin" } else u
  u

/-- `node_extract_preferences(state)` with the language-model extraction
(model invocation, JSON search and `json.loads`) as a parameter:
`extract text = none` models every failure path (exception, no JSON
object in the response), which falls back to the defaults. -/
def node_extract_preferences (extract : String → Option Extracted)
    (state : CallState) : CallState :=
  let user_text := state.user_text.getD ""
  if pyStrip user_text == "" then defaultsFill state
  else
    match extract user_text with
    | none => defaultsFill state
    | some ex => applyUpdates state (extractUpdates state ex)

/-- `node_agent(state)`: initializes the conversation on first entry
(the prompt texts are built by the external `mkSys`/`mkUsr`), invokes
the model, appends its reply, and stores the parsed JSON summary (or
the raw text on parse failure) as `best_option`. -/
def node_agent (invoke : List Msg → Msg) (parse : String → Option BestOption)
    (mkSys mkUsr : CallState → String) (state : CallState) : CallState :=
  let messages :=
    if state.messages.isEmpty then
      [{ content := mkSys state }, { content := mkUsr state }]
    else state.messages
  let resp := invoke messages
  let summary :=
    match parse resp.content with
    | some b => AgentSummary.parsed b
    | none => AgentSummary.raw resp.content
  { state with messages := messages ++ [resp], best_option := some summary }

/-- `node_finalize(state)`: copies the last conversation turn's text to
`result_text`; `none` models the `IndexError` raised on an empty
conversation. -/
def node_finalize (state : CallState) : Option CallState :=
  state.messages.getLast?.map fun last => { state with result_text := some last.content }

/-- The placeholder appointment `node_create_calendar_event` fabricates
when the agent produced no usable one; the slot (tomorrow 10:00–10:30)
depends on the wall clock and is a parameter. -/
def dummyAppointment (dummySlot : Slot) : BestOption :=
  { provider := some
      { id := "dummy_provider_1", name := "General Medical Clinic"
        address := some "Berlin, Germany", rating := some 0, distance_km := some 0 }
    slot := some dummySlot
    score := some 0 }

/-- `node_create_calendar_event(state)` with the calendar ports and the
wall-clock-dependent dummy slot as parameters.  A `best_option` lacking
a provider or a slot is replaced by the placeholder; the event is then
created regardless of the calendar-freedom check, unless a slot bound
is a falsy (empty) string. -/
def node_create_calendar_event (isFree : Slot → Bool)
    (createEvent : String → Slot → String → String) (dummySlot : Slot)
    (state : CallState) : CallState :=
  -- the shared tail: check freedom (result only logged), create the
  -- event when both slot bounds are truthy, store `event_id`
  let mkEvent : CallState → BestOption → CallState := fun st b =>
    match b.slot with
    | some slot =>
        if !(slot.start == "") && !(slot.«end» == "") then
          let _ := isFree slot
          let title := pyTitle (st.specialty.getD "Medical") ++ " Appointment - "
            ++ ((b.provider.map (·.name)).getD "")
          let location := ((b.provider.map (fun p => p.address.getD "")).getD "")
          { st with event_id := some (createEvent title slot location) }
        else { st with event_id := none }
    | none => { st with event_id := none }
  let details :=
    match state.best_option with
    | some (.parsed b) => if b.provider.isSome && b.slot.isSome then some b else none
    | _ => none
  match details with
  | none =>
      let b := dummyAppointment dummySlot
      mkEvent { state with best_option := some (.parsed b) } b
  | some b => mkEvent state b

/-! ## `mcp_server.py` — `select_best_appointment` -/

/-- The return dictionary of the `select_best_appointment` tool. -/
structure SelectResult where
  success : Bool
  provider : Option ProviderSummary := none
  slot : Option Slot := none
  score : Option ℚ := none
  error : Option String := none
deriving Repr, DecidableEq

/-- A candidate held in `best_option` during the search loop. -/
structure Candidate where
  provider : ProviderSummary
  slot : Slot
  score : ℚ
deriving Repr, DecidableEq

/-- Embeds the Python lookup `score_result.get("score", 0)`: the
dictionary returned by `score` has exactly the keys `total` and
`explain`, so the lookup of `"score"` always misses and the loop sees
the default. -/
def scoreKeyLookup (_r : ScoreResult) : Option ℚ := none

/-- The provider summary `select_best_appointment` builds for its
winning candidate. -/
def selectSummary (p : Provider) : ProviderSummary :=
  { id := p.id, name := p.name, address := some (p.address.getD "")
    rating := some (p.rating.getD 0), distance_km := some (p.distance_km.getD 0) }

/-- The placeholder appointment returned when no calendar-free slot is
found. -/
def demoCandidate : Candidate :=
  { provider :=
      { id := "dummy_provider", name := "Demo Healthcare Provider"
        address := some "123 Demo Street, Berlin"
        rating := some (9/2), distance_km := some 2 }
    slot := { start := "2026-02-10T14:00:00", «end» := "2026-02-10T14:30:00" }
    score := 0 }

/-- `select_best_appointment(time_window)`: iterates the cached
providers' openings, skips calendar-busy slots, scores each remaining
slot and keeps the one whose (looked-up) score strictly exceeds the
best so far (initially `-1`); falls back to the demo placeholder when
nothing qualifies. -/
def select_best_appointment (isFree : Slot → Bool) (providers : List Provider)
    (_time_window : String) : SelectResult :=
  if providers.isEmpty then
    { success := false
      error := some "No providers found. Please run search_providers_tool first." }
  else
    let scan := providers.foldl
      (fun (acc : Option Candidate × ℚ) provider =>
        provider.openings.foldl
          (fun acc slot =>
            if !isFree slot then acc
            else
              let score_result := score provider slot
              let current_score := (scoreKeyLookup score_result).getD 0
              if current_score > acc.2 then
                (some { provider := selectSummary provider, slot := slot
                        score := current_score },
                 current_score)
              else acc)
          acc)
      (none, -1)
    match scan.1 with
    | none =>
        { success := true, provider := some demoCandidate.provider
          slot := some demoCandidate.slot, score := some demoCandidate.score }
    | some b =>
        { success := true, provider := some b.provider
          slot := some b.slot, score := some b.score }

/-! ## Specification-side definitions -/

/-- Written from the spec's words for `SelectProvider`: `x` is the
element of `l` with minimum `distance_km`, ties broken by directory
order (first minimum wins) — there is an occurrence of `x` whose key is
less than or equal to every key in the list and strictly less than
every key before it. -/
def IsFirstMin (l : List Provider) (x : Provider) : Prop :=
  ∃ l₁ l₂, l = l₁ ++ x :: l₂ ∧ (∀ q ∈ l, distKey x ≤ distKey q) ∧
    ∀ q ∈ l₁, distKey x < distKey q

/-! ## Concrete fixtures used by witnesses and counterexamples -/

/-- A provider fixture with two openings. -/
def pRes : Provider :=
  { id := "p1", name := "Mitte Dental", specialty := "dentist"
    address := some "Invalidenstr. 1", rating := some 4, distance_km := some 2
    openings := [{ start := "2026-02-11T09:00:00", «end» := "2026-02-11T09:30:00" }] }

/-- A slot fixture. -/
def sRes : Slot := { start := "2026-02-11T09:00:00", «end» := "2026-02-11T09:30:00" }

/-! ## Theorems -/

/-- C7: `score` returns `total = rating * 2.0 + (1.0 / (1.0 + distance_km)) * 3.0`
rounded to three decimal places together with an `explain` record
carrying `rating`, `distance_km` and the slot's `start` verbatim, and in
particular a provider with rating 4.0 at distance 1.0 km scores 9.5. -/
theorem claim_score_formula (r d : ℚ) (s : Slot) (hd : 0 ≤ d) :
    score { id := "", name := "", specialty := "", rating := some r, distance_km := some d } s
        = { total := round3 (r * 2 + (1 / (1 + d)) * 3)
            explain := { rating := r, distance_km := d, slot_start := s.start } } ∧
    score { id := "p6", name := "P6", specialty := "dentist"
            rating := some 4, distance_km := some 1 }
          { start := "2026-01-01T10:00:00", «end» := "2026-01-01T10:30:00" }
        = { total := 19/2
            explain := { rating := 4, distance_km := 1
                         slot_start := "2026-01-01T10:00:00" } } := by
  refine ⟨rfl, ?_⟩
  norm_num [score, round3, round_eq]

/-- Witness for C7 at rating 4, distance 1. -/
theorem claim_score_formula_witness :
    (0 : ℚ) ≤ 1 ∧
    score { id := "p6", name := "P6", specialty := "dentist"
            rating := some 4, distance_km := some 1 }
          { start := "2026-01-01T10:00:00", «end» := "2026-01-01T10:30:00" }
        = { total := 19/2
            explain := { rating := 4, distance_km := 1
                         slot_start := "2026-01-01T10:00:00" } } :=
  ⟨by norm_num,
   (claim_score_formula 4 1 { start := "2026-01-01T10:00:00", «end» := "2026-01-01T10:30:00" }
      (by norm_num)).2⟩

/-- C6 (amended): when the Google backend is configured, an `HttpError`
or missing credentials inside the availability check yields `true`
(slot treated as available); but when the availability check itself
raises, `check_calendar_free` falls back to the MVP busy-list check
rather than returning `true` unconditionally; a successful listing
reports free iff it returned no events. -/
theorem claim_calendar_outage_amended (slot : Slot) (n : Nat) :
    check_calendar_free true .httpError slot = true ∧
    check_calendar_free true .authMissing slot = true ∧
    check_calendar_free true .failure slot = mvpFree slot ∧
    check_calendar_free true (.events n) slot = (n == 0) ∧
    check_calendar_free false .failure slot = mvpFree slot :=
  ⟨rfl, rfl, rfl, rfl, rfl⟩

/-- C6 counterexample: with the Google backend configured and its
availability check raising, the slot overlapping the MVP busy block is
reported busy, not available — refuting "returns true" as stated. -/
theorem claim_calendar_outage_cex :
    check_calendar_free true .failure
        { start := "2026-02-10T15:00:00", «end» := "2026-02-10T16:00:00" } = false := by
  decide

/-- C10: with the bundled reservation adapter `reserve_slot` always
returns true, so a record reaching `node_reserve_and_book` with a
provider, a chosen slot and no prior error always gets
`reservation_ok = true`, a (non-null) event id, and a result payload
with the provider summary, slot, score and event id; the
"Reservation failed." branch is unreachable. -/
theorem claim_reserve_always_succeeds
    (createEvent : String → Slot → String → String) (s : CallState)
    (p : Provider) (slot : Slot) (hErr : truthyStr s.error = false)
    (hp : s.provider = some p) (hs : s.chosen_slot = some slot) :
    reserve_slot p slot = true ∧
    node_reserve_and_book createEvent s =
      { s with
          reservation_ok := some true
          event_id := some (createEvent
            (pyTitle p.specialty ++ " appointment - " ++ p.name) slot
            (p.address.getD p.name))
          result := some
            { provider := some
                { id := p.id, name := p.name
                  rating := p.rating, distance_km := p.distance_km }
              slot := some slot
              score := some (score p slot)
              event_id := some (createEvent
                (pyTitle p.specialty ++ " appointment - " ++ p.name) slot
                (p.address.getD p.name)) }
          transcript := s.transcript ++
            ["[SYS] Reserved + created event: " ++ createEvent
              (pyTitle p.specialty ++ " appointment - " ++ p.name) slot
              (p.address.getD p.name)] } := by
  refine ⟨rfl, ?_⟩
  simp [node_reserve_and_book, hErr, hp, hs, reserve_slot]

/-- Witness for C10 at a concrete state, provider and slot. -/
theorem claim_reserve_always_succeeds_witness :
    truthyStr (none : Option String) = false ∧
    node_reserve_and_book (fun _ _ _ => "EVT")
        { provider := some pRes, chosen_slot := some sRes } =
      { ({ provider := some pRes, chosen_slot := some sRes } : CallState) with
          reservation_ok := some true
          event_id := some "EVT"
          result := some
            { provider := some
                { id := pRes.id, name := pRes.name
                  rating := pRes.rating, distance_km := pRes.distance_km }
              slot := some sRes
              score := some (score pRes sRes)
              event_id := some "EVT" }
          transcript := [] ++ ["[SYS] Reserved + created event: " ++ "EVT"] } :=
  ⟨rfl,
   (claim_reserve_always_succeeds (fun _ _ _ => "EVT")
      { provider := some pRes, chosen_slot := some sRes } pRes sRes rfl rfl rfl).2⟩

/-- C1: once `error` is (truthily) set, `node_call_provider`,
`node_choose_slot` and `node_reserve_and_book` return the record
unchanged, and `node_done` always produces a `result`: a "failed"
payload (carrying the error and transcript) when `error` is set and
`result` absent, the existing `result` stamped "success" when `result`
is present, and a "completed" payload otherwise. -/
theorem claim_error_short_circuit (isFree : Slot → Bool)
    (createEvent : String → Slot → String → String) (s : CallState) :
    (truthyStr s.error = true →
        node_call_provider s = s ∧ node_choose_slot isFree s = s ∧
          node_reserve_and_book createEvent s = s) ∧
    (node_done s).result.isSome = true ∧
    (truthyStr s.error = true → s.result = none →
        node_done s = { s with result := some (
          { status := some "failed", error := s.error
            transcript := some s.transcript } : ResultPayload) }) ∧
    (∀ r, s.result = some r →
        node_done s = { s with result := some (
          { r with status := some "success", transcript := some s.transcript } : ResultPayload) }) ∧
    (truthyStr s.error = false → s.result = none →
        node_done s = { s with result := some (
          { status := some "completed", transcript := some s.transcript } : ResultPayload) }) := by
  refine ⟨fun h => ⟨?_, ?_, ?_⟩, ?_, fun h hr => ?_, fun r hr => ?_, fun h hr => ?_⟩
  · simp [node_call_provider, h]
  · simp [node_choose_slot, h]
  · simp [node_reserve_and_book, h]
  · rcases hr : s.result with _ | r <;> simp [node_done, hr] <;> split <;> simp
  · simp [node_done, h, hr]
  · simp [node_done, hr]
  · simp [node_done, h, hr]

/-- Witness for C1 at concrete records: an errored record passes
through the three steps and finalizes as "failed"; a record with a
result finalizes as "success"; an empty record finalizes as
"completed". -/
theorem claim_error_short_circuit_witness :
    node_call_provider { error := some "boom" } = { error := some "boom" } ∧
    node_done { error := some "boom" } =
      { ({ error := some "boom" } : CallState) with result := some (
          { status := some "failed", error := some "boom"
            transcript := some [] } : ResultPayload) } ∧
    node_done { result := some { event_id := some "E" } } =
      { ({ result := some { event_id := some "E" } } : CallState) with result := some (
          { event_id := some "E", status := some "success"
            transcript := some [] } : ResultPayload) } ∧
    node_done {} =
      { ({} : CallState) with result := some (
          { status := some "completed", transcript := some [] } : ResultPayload) } :=
  ⟨((claim_error_short_circuit (fun _ => true) (fun _ _ _ => "")
        { error := some "boom" }).1 rfl).1,
   (claim_error_short_circuit (fun _ => true) (fun _ _ _ => "")
        { error := some "boom" }).2.2.1 rfl rfl,
   (claim_error_short_circuit (fun _ => true) (fun _ _ _ => "")
        { result := some { event_id := some "E" } }).2.2.2.1
      { event_id := some "E" } rfl,
   (claim_error_short_circuit (fun _ => true) (fun _ _ _ => "") {}).2.2.2.2 rfl rfl⟩

/-- Helper: `find?` returns the head of the first satisfying suffix. -/
theorem find?_append_first {α : Type} (p : α → Bool) (l₁ : List α) (c : α)
    (l₂ : List α) (h₁ : ∀ x ∈ l₁, p x = false) (hc : p c = true) :
    (l₁ ++ c :: l₂).find? p = some c := by
  induction l₁ with
  | nil => simp [List.find?_cons_of_pos, hc]
  | cons a t ih =>
      have ha : p a = false := h₁ a (by simp)
      rw [List.cons_append, List.find?_cons_of_neg _ (by simp [ha])]
      exact ih fun x hx => h₁ x (by simp [hx])

/-- C2: on a record without prior error whose `proposed_slots` is
non-empty, `node_choose_slot` picks the first calendar-free slot (an
element of `proposed_slots`), setting `calendar_ok := true`; if no slot
is free it sets `calendar_ok := false` and the fixed error, leaving
`chosen_slot` untouched; and an empty `proposed_slots` yields the
"Provider had no slots." error. -/
theorem claim_choose_slot_first_fit (isFree : Slot → Bool) (s : CallState)
    (slots : List Slot) (hErr : truthyStr s.error = false)
    (hSlots : s.proposed_slots = some slots) :
    (slots = [] →
        node_choose_slot isFree s = { s with error := some "Provider had no slots." }) ∧
    (∀ l₁ c l₂, slots = l₁ ++ c :: l₂ → (∀ x ∈ l₁, isFree x = false) →
        isFree c = true →
        c ∈ slots ∧
        node_choose_slot isFree s =
          { s with
              chosen_slot := some c
              calendar_ok := some true
              transcript := s.transcript ++ ["[SYS] Calendar ok for " ++ c.start] }) ∧
    (slots ≠ [] → (∀ x ∈ slots, isFree x = false) →
        node_choose_slot isFree s =
          { s with
              calendar_ok := some false
              error := some "No proposed slot fits calendar." } ∧
        (node_choose_slot isFree s).chosen_slot = s.chosen_slot) := by
  refine ⟨fun h => ?_, fun l₁ c l₂ hdec h₁ hc => ?_, fun hne hall => ?_⟩
  · simp [node_choose_slot, hErr, hSlots, h]
  · subst hdec
    have hfind := find?_append_first isFree l₁ c l₂ h₁ hc
    refine ⟨by simp, ?_⟩
    simp [node_choose_slot, hErr, hSlots, hfind]
  · have hfind : slots.find? isFree = none := List.find?_eq_none.mpr fun x hx => by
      simp [hall x hx]
    have : slots.isEmpty = false := by
      cases slots with
      | nil => exact absurd rfl hne
      | cons a t => rfl
    constructor <;> simp [node_choose_slot, hErr, hSlots, hfind, this]

/-- Witness for C2: with the MVP calendar check, the busy slot is
skipped and the later free slot chosen; an all-busy list errors; an
empty list errors. -/
theorem claim_choose_slot_first_fit_witness :
    node_choose_slot mvpFree { proposed_slots := some [] } =
      { ({ proposed_slots := some [] } : CallState) with
          error := some "Provider had no slots." } ∧
    node_choose_slot mvpFree
        { proposed_slots := some
            [{ start := "2026-02-10T15:00:00", «end» := "2026-02-10T16:00:00" },
             { start := "2026-02-12T10:00:00", «end» := "2026-02-12T10:30:00" }] } =
      { ({ proposed_slots := some
            [{ start := "2026-02-10T15:00:00", «end» := "2026-02-10T16:00:00" },
             { start := "2026-02-12T10:00:00", «end» := "2026-02-12T10:30:00" }] } : CallState) with
          chosen_slot := some { start := "2026-02-12T10:00:00", «end» := "2026-02-12T10:30:00" }
          calendar_ok := some true
          transcript := [] ++ ["[SYS] Calendar ok for " ++ "2026-02-12T10:00:00"] } ∧
    node_choose_slot mvpFree
        { proposed_slots := some
            [{ start := "2026-02-10T15:00:00", «end» := "2026-02-10T16:00:00" }] } =
      { ({ proposed_slots := some
            [{ start := "2026-02-10T15:00:00", «end» := "2026-02-10T16:00:00" }] } : CallState) with
          calendar_ok := some false
          error := some "No proposed slot fits calendar." } :=
  ⟨(claim_choose_slot_first_fit mvpFree { proposed_slots := some [] } [] rfl rfl).1 rfl,
   ((claim_choose_slot_first_fit mvpFree
        { proposed_slots := some
            [{ start := "2026-02-10T15:00:00", «end» := "2026-02-10T16:00:00" },
             { start := "2026-02-12T10:00:00", «end» := "2026-02-12T10:30:00" }] }
        [{ start := "2026-02-10T15:00:00", «end» := "2026-02-10T16:00:00" },
         { start := "2026-02-12T10:00:00", «end» := "2026-02-12T10:30:00" }] rfl rfl).2.1
      [{ start := "2026-02-10T15:00:00", «end» := "2026-02-10T16:00:00" }]
      { start := "2026-02-12T10:00:00", «end» := "2026-02-12T10:30:00" } [] rfl
      (by decide) (by decide)).2,
   (((claim_choose_slot_first_fit mvpFree
        { proposed_slots := some
            [{ start := "2026-02-10T15:00:00", «end» := "2026-02-10T16:00:00" }] }
        [{ start := "2026-02-10T15:00:00", «end» := "2026-02-10T16:00:00" }] rfl rfl).2.2
      (by decide) (by decide))).1⟩

/-- Helper for C3: the left-to-right scan of `node_pick_provider`
returns the first provider attaining the minimal distance key. -/
theorem pickClosest_isFirstMin :
    ∀ (ms : List Provider) (m : Provider), IsFirstMin (m :: ms) (pickClosest m ms) := by
  intro ms
  induction ms with
  | nil => exact fun m => ⟨[], [], rfl, by simp [pickClosest], by simp⟩
  | cons p rest ih =>
      intro m
      have hstep : pickClosest m (p :: rest) =
          if distKey p < distKey m then pickClosest p rest else pickClosest m rest := rfl
      by_cases h : distKey p < distKey m
      · rw [hstep, if_pos h]
        obtain ⟨l₁, l₂, heq, hmin, hstrict⟩ := ih p
        refine ⟨m :: l₁, l₂, by rw [List.cons_append, ← heq], fun q hq => ?_, fun q hq => ?_⟩
        · rcases List.mem_cons.mp hq with rfl | hq'
          · exact le_of_lt (lt_of_le_of_lt (hmin p (by simp)) h)
          · exact hmin q hq'
        · rcases List.mem_cons.mp hq with rfl | hq'
          · exact lt_of_le_of_lt (hmin p (by simp)) h
          · exact hstrict q hq'
      · rw [hstep, if_neg h]
        have hmp : distKey m ≤ distKey p := le_of_not_lt h
        obtain ⟨l₁, l₂, heq, hmin, hstrict⟩ := ih m
        cases l₁ with
        | nil =>
            simp only [List.nil_append, List.cons.injEq] at heq
            obtain ⟨hx, hl⟩ := heq
            refine ⟨[], p :: rest, by rw [List.nil_append, ← hx], fun q hq => ?_, by simp⟩
            rcases List.mem_cons.mp hq with rfl | hq'
            · rw [← hx]
            · rcases List.mem_cons.mp hq' with rfl | hq''
              · rw [← hx]; exact hmp
              · exact hmin q (List.mem_cons_of_mem m hq'')
        | cons a l₁' =>
            simp only [List.cons_append, List.cons.injEq] at heq
            obtain ⟨ham, hrest⟩ := heq
            have hxm : distKey (pickClosest m rest) < distKey m := by
              have := hstrict a (by simp)
              rwa [← ham] at this
            refine ⟨m :: p :: l₁', l₂,
              by rw [List.cons_append, List.cons_append, ← hrest], fun q hq => ?_,
              fun q hq => ?_⟩
            · rcases List.mem_cons.mp hq with rfl | hq'
              · exact le_of_lt hxm
              · rcases List.mem_cons.mp hq' with rfl | hq''
                · exact le_trans (le_of_lt hxm) hmp
                · exact hmin q (List.mem_cons_of_mem m (hrest ▸ hq''))
            · rcases List.mem_cons.mp hq with rfl | hq'
              · exact hxm
              · rcases List.mem_cons.mp hq' with rfl | hq''
                · exact lt_of_lt_of_le hxm hmp
                · exact hstrict q (by simp [hq''])

/-- C3: an empty directory search sets the fixed error and chooses no
provider; a non-empty search result makes `node_pick_provider` choose a
provider that attains the minimum `distance_km`, the first such in
directory order, and append the selection transcript line. -/
theorem claim_pick_provider_closest_first
    (search : String → ℚ → String → List Provider) (s : CallState)
    (found : List Provider)
    (hm : search (s.specialty.getD "dentist") (s.radius_km.getD 5)
        (s.user_location.getD "Berlin") = found) :
    (found = [] →
        node_pick_provider search s =
          { s with error := some "No providers found in radius." }) ∧
    (∀ m ms, found = m :: ms → ∃ p, IsFirstMin found p ∧
        node_pick_provider search s =
          { s with
              provider := some p
              transcript := s.transcript ++ ["[SYS] Selected provider: " ++ p.name] }) := by
  subst hm
  constructor
  · intro h
    simp [node_pick_provider, h]
  · intro m ms h
    refine ⟨pickClosest m ms, ?_, ?_⟩
    · rw [h]; exact pickClosest_isFirstMin ms m
    · simp [node_pick_provider, h]

/-- Witness for C3: an empty search errors; a two-way distance tie is
broken in favour of the provider listed first. -/
theorem claim_pick_provider_closest_first_witness :
    node_pick_provider (fun _ _ _ => []) {} =
      { ({} : CallState) with error := some "No providers found in radius." } ∧
    (∃ p, IsFirstMin
        [{ id := "a", name := "Alpha", specialty := "dentist", distance_km := some 2 },
         { id := "b", name := "Beta", specialty := "dentist", distance_km := some 2 }] p ∧
      node_pick_provider
          (fun _ _ _ =>
            [{ id := "a", name := "Alpha", specialty := "dentist", distance_km := some 2 },
             { id := "b", name := "Beta", specialty := "dentist", distance_km := some 2 }]) {} =
        { ({} : CallState) with
            provider := some p
            transcript := [] ++ ["[SYS] Selected provider: " ++ p.name] }) :=
  ⟨(claim_pick_provider_closest_first (fun _ _ _ => []) {} [] rfl).1 rfl,
   (claim_pick_provider_closest_first
      (fun _ _ _ =>
        [{ id := "a", name := "Alpha", specialty := "dentist", distance_km := some 2 },
         { id := "b", name := "Beta", specialty := "dentist", distance_km := some 2 }]) {}
      [{ id := "a", name := "Alpha", specialty := "dentist", distance_km := some 2 },
       { id := "b", name := "Beta", specialty := "dentist", distance_km := some 2 }] rfl).2
      { id := "a", name := "Alpha", specialty := "dentist", distance_km := some 2 }
      [{ id := "b", name := "Beta", specialty := "dentist", distance_km := some 2 }] rfl⟩

/-- C4 (amended): with a selected provider and no prior error, a
negotiation reporting no availability makes `node_call_provider` store
an empty `proposed_slots` and append the failure narration, but it does
NOT set `error` — the error field is left unchanged (the
"Provider had no slots." error arises only in the next step); a
successful negotiation stores at most 3 offered slots and appends the
negotiation transcript verbatim, including the synthetic
"[CALL] Calling ..." line. -/
theorem claim_negotiate_slots_amended (s : CallState) (p : Provider)
    (hErr : truthyStr s.error = false) (hp : s.provider = some p) :
    (p.openings = [] →
        node_call_provider s =
          { s with
              proposed_slots := some []
              transcript := s.transcript ++
                ["[CALL] Calling " ++ p.name ++ "...",
                 "[RECEP] Hello, how can I help?",
                 "[AGENT] I'd like to book an appointment. Constraint: " ++
                   s.time_window.getD "this week",
                 "[RECEP] Sorry, no availability."] }) ∧
    (p.openings ≠ [] →
        node_call_provider s =
          { s with
              proposed_slots := some (p.openings.take 3)
              transcript := s.transcript ++
                ["[CALL] Calling " ++ p.name ++ "...",
                 "[RECEP] Hello, how can I help?",
                 "[AGENT] I'd like to book an appointment. Constraint: " ++
                   s.time_window.getD "this week",
                 "[RECEP] We can do: " ++
                   String.intercalate ", " ((p.openings.take 3).map (fun sl => sl.start)),
                 "[AGENT] Great, let me confirm one moment."] } ∧
        (p.openings.take 3).length ≤ 3) ∧
    (node_call_provider s).error = s.error := by
  refine ⟨fun h => ?_, fun h => ⟨?_, ?_⟩, ?_⟩
  · simp [node_call_provider, hErr, hp, simulate_receptionist_call, h]
  · have hne : p.openings.isEmpty = false := by
      cases hop : p.openings with
      | nil => exact absurd hop h
      | cons a t => rfl
    simp [node_call_provider, hErr, hp, simulate_receptionist_call, hne]
  · exact List.length_take_le 3 p.openings
  · cases hop : p.openings.isEmpty <;>
      simp [node_call_provider, hErr, hp, simulate_receptionist_call, hop]

/-- Witness for C4 at a concrete errorless state with a provider that
has one opening. -/
theorem claim_negotiate_slots_amended_witness :
    node_call_provider { provider := some pRes } =
      { ({ provider := some pRes } : CallState) with
          proposed_slots := some (pRes.openings.take 3)
          transcript := [] ++
            ["[CALL] Calling " ++ pRes.name ++ "...",
             "[RECEP] Hello, how can I help?",
             "[AGENT] I'd like to book an appointment. Constraint: " ++ "this week",
             "[RECEP] We can do: " ++
               String.intercalate ", " ((pRes.openings.take 3).map (fun sl => sl.start)),
             "[AGENT] Great, let me confirm one moment."] } ∧
    (pRes.openings.take 3).length ≤ 3 :=
  (claim_negotiate_slots_amended { provider := some pRes } pRes rfl rfl).2.1 (by decide)

/-- C4 counterexample: a provider with no openings makes the
negotiation report `ok = false`, yet `node_call_provider` leaves
`error` unset (`none`) while storing the empty slot list — refuting
"sets `error`" as stated. -/
theorem claim_negotiate_slots_cex :
    (node_call_provider
        { provider := some { id := "p9", name := "Empty Clinic", specialty := "dentist" } }).error
        = none ∧
    (node_call_provider
        { provider := some { id := "p9", name := "Empty Clinic", specialty := "dentist" } }).proposed_slots
        = some [] ∧
    (simulate_receptionist_call
        { id := "p9", name := "Empty Clinic", specialty := "dentist" } "this week").ok = false := by
  exact ⟨rfl, rfl, rfl⟩

/-- C5 (code bug): `select_best_appointment` computes each slot's score
with `score` but then reads the key `"score"` from the result — which
exposes only `total` and `explain` — so every candidate is weighed 0
and the FIRST calendar-free slot wins regardless of score: with two
free slots where the second provider scores strictly higher, the first
provider is returned with a reported score of 0. -/
theorem claim_select_best_score_bug :
    (select_best_appointment (fun _ => true)
        [{ id := "a", name := "Far Clinic", specialty := "dentist"
           rating := some 1, distance_km := some 10
           openings := [{ start := "2026-03-01T10:00:00", «end» := "2026-03-01T10:30:00" }] },
         { id := "b", name := "Near Clinic", specialty := "dentist"
           rating := some 5, distance_km := some 1
           openings := [{ start := "2026-03-02T10:00:00", «end» := "2026-03-02T10:30:00" }] }]
        "this week").provider.map (fun q => q.id) = some "a" ∧
    (select_best_appointment (fun _ => true)
        [{ id := "a", name := "Far Clinic", specialty := "dentist"
           rating := some 1, distance_km := some 10
           openings := [{ start := "2026-03-01T10:00:00", «end» := "2026-03-01T10:30:00" }] },
         { id := "b", name := "Near Clinic", specialty := "dentist"
           rating := some 5, distance_km := some 1
           openings := [{ start := "2026-03-02T10:00:00", «end» := "2026-03-02T10:30:00" }] }]
        "this week").score = some 0 ∧
    (score
        { id := "b", name := "Near Clinic", specialty := "dentist"
          rating := some 5, distance_km := some 1 }
        { start := "2026-03-02T10:00:00", «end» := "2026-03-02T10:30:00" }).total >
      (score
        { id := "a", name := "Far Clinic", specialty := "dentist"
          rating := some 1, distance_km := some 10 }
        { start := "2026-03-01T10:00:00", «end» := "2026-03-01T10:30:00" }).total := by
  refine ⟨rfl, rfl, ?_⟩
  norm_num [score, round3, round_eq]

/-- Helper: a list is a prefix of itself. -/
theorem prefix_self (l : List String) : l <+: l := ⟨[], by simp⟩

/-- Helper: a list is a prefix of itself extended on the right. -/
theorem prefix_self_append (l t : List String) : l <+: l ++ t := ⟨t, rfl⟩

/-- C8: every step function of both pipelines only appends to the
transcript — the input's transcript is a prefix of the output's (the
`Tools` node of the agent graph is library code outside this
repository and the spec's scope, so the repository-defined steps are
listed). -/
theorem claim_transcript_monotone
    (search : String → ℚ → String → List Provider) (isFree : Slot → Bool)
    (createEvent : String → Slot → String → String) (heard : Option String)
    (importErr apiKey : Option String) (extract : String → Option Extracted)
    (invoke : List Msg → Msg) (parse : String → Option BestOption)
    (mkSys mkUsr : CallState → String) (dummySlot : Slot) (s : CallState) :
    s.transcript <+: (node_pick_provider search s).transcript ∧
    s.transcript <+: (node_call_provider s).transcript ∧
    s.transcript <+: (node_choose_slot isFree s).transcript ∧
    s.transcript <+: (node_reserve_and_book createEvent s).transcript ∧
    s.transcript <+: (node_done s).transcript ∧
    s.transcript <+: (node_listen_user heard s).transcript ∧
    s.transcript <+: (node_speak_user importErr apiKey s).transcript ∧
    s.transcript <+: (node_extract_preferences extract s).transcript ∧
    s.transcript <+: (node_agent invoke parse mkSys mkUsr s).transcript ∧
    (∀ s', node_finalize s = some s' → s.transcript <+: s'.transcript) ∧
    s.transcript <+:
      (node_create_calendar_event isFree createEvent dummySlot s).transcript := by
  refine ⟨?_, ?_, ?_, ?_, ?_, ?_, ?_, ?_, ?_, ?_, ?_⟩
  · unfold node_pick_provider
    dsimp only
    split
    · exact prefix_self _
    · exact prefix_self_append _ _
  · unfold node_call_provider
    dsimp only
    split
    · exact prefix_self _
    · split
      · exact prefix_self _
      · exact prefix_self_append _ _
  · unfold node_choose_slot
    dsimp only
    split
    · exact prefix_self _
    · split
      · exact prefix_self _
      · split
        · exact prefix_self_append _ _
        · exact prefix_self _
  · unfold node_reserve_and_book
    dsimp only
    split
    · exact prefix_self _
    · split
      · split
        · exact prefix_self _
        · exact prefix_self_append _ _
      · exact prefix_self _
  · unfold node_done
    split
    · exact prefix_self _
    · split
      · exact prefix_self _
      · exact prefix_self _
  · exact prefix_self_append _ _
  · unfold node_speak_user
    split
    · exact prefix_self _
    · split
      · exact prefix_self _
      · split
        · exact prefix_self _
        · exact prefix_self _
  · unfold node_extract_preferences
    dsimp only
    split
    · exact prefix_self _
    · split
      · exact prefix_self _
      · exact prefix_self _
  · exact prefix_self _
  · intro s' h
    unfold node_finalize at h
    cases hm : s.messages.getLast? with
    | none => rw [hm] at h; exact absurd h (by simp)
    | some last =>
        rw [hm] at h
        have h2 : { s with result_text := some last.content } = s' := Option.some.inj h
        rw [← h2]
  · unfold node_create_calendar_event
    dsimp only
    split
    · split
      · split
        · exact prefix_self _
        · exact prefix_self _
      · exact prefix_self _
    · split
      · split
        · exact prefix_self _
        · exact prefix_self _
      · exact prefix_self _

/-- Witness for C8: the `node_finalize` conjunct applied at a record
with one conversation turn. -/
theorem claim_transcript_monotone_witness :
    (["a"] : List String) <+:
      (({ transcript := ["a"], messages := [{ content := "hi" }]
          result_text := some "hi" } : CallState)).transcript :=
  (claim_transcript_monotone (fun _ _ _ => []) (fun _ => true) (fun _ _ _ => "")
      none none none (fun _ => none) (fun _ => { content := "hi" }) (fun _ => none)
      (fun _ => "") (fun _ => "") { start := "s", «end» := "e" }
      { transcript := ["a"], messages := [{ content := "hi" }] }).2.2.2.2.2.2.2.2.2.1
    { transcript := ["a"], messages := [{ content := "hi" }], result_text := some "hi" }
    rfl

/-- Helper: truthiness of an absent optional string. -/
theorem truthyStr_none : truthyStr none = false := rfl

/-- Helper: truthiness of an absent optional number. -/
theorem truthyNum_none : truthyNum none = false := rfl

/-- Helper: a truthy optional string is present. -/
theorem isSome_of_truthyStr {o : Option String} (h : truthyStr o = true) :
    o.isSome = true := by
  cases o with
  | none => exact absurd h (by decide)
  | some v => rfl

/-- Helper: a truthy optional number is present. -/
theorem isSome_of_truthyNum {o : Option ℚ} (h : truthyNum o = true) :
    o.isSome = true := by
  cases o with
  | none => exact absurd h (by decide)
  | some v => rfl

/-- Helper: capping a nonzero radius at 3 keeps it nonzero (truthy). -/
theorem truthyNum_min3 (q : ℚ) (h : truthyNum (some q) = true) :
    truthyNum (some (min q 3)) = true := by
  simp only [truthyNum, Bool.not_eq_true', beq_eq_false_iff_ne, ne_eq] at *
  rcases min_cases q 3 with ⟨hm, _⟩ | ⟨hm, _⟩ <;> rw [hm]
  · exact h
  · norm_num

/-- The `specialty` entry of the updates dictionary: the extracted value
when truthy and the state value falsy, else the default when the state
value is falsy, else absent. -/
theorem extractUpdates_specialty (s : CallState) (ex : Extracted) :
    (extractUpdates s ex).specialty =
      if truthyStr ex.specialty && !truthyStr s.specialty then ex.specialty
      else if !truthyStr s.specialty then some "dentist" else none := by
  unfold extractUpdates
  dsimp only
  simp only [apply_ite Updates.specialty, apply_ite Updates.time_window,
    apply_ite Updates.radius_km, apply_ite Updates.user_location,
    apply_ite Updates.preferred_provider, apply_ite Updates.urgency, ite_self]
  by_cases ha : truthyStr ex.specialty <;> by_cases hb : truthyStr s.specialty <;>
    simp [ha, hb, truthyStr_none]

/-- The `time_window` entry of the updates dictionary. -/
theorem extractUpdates_time_window (s : CallState) (ex : Extracted) :
    (extractUpdates s ex).time_window =
      if truthyStr ex.time_window && !truthyStr s.time_window then ex.time_window
      else if !truthyStr s.time_window then some "this week" else none := by
  unfold extractUpdates
  dsimp only
  simp only [apply_ite Updates.specialty, apply_ite Updates.time_window,
    apply_ite Updates.radius_km, apply_ite Updates.user_location,
    apply_ite Updates.preferred_provider, apply_ite Updates.urgency, ite_self]
  by_cases ha : truthyStr ex.time_window <;> by_cases hb : truthyStr s.time_window <;>
    simp [ha, hb, truthyStr_none]

/-- The `user_location` entry of the updates dictionary (never
extracted, only defaulted). -/
theorem extractUpdates_user_location (s : CallState) (ex : Extracted) :
    (extractUpdates s ex).user_location =
      if !truthyStr s.user_location then some "Berlin" else none := by
  unfold extractUpdates
  dsimp only
  simp only [apply_ite Updates.specialty, apply_ite Updates.time_window,
    apply_ite Updates.radius_km, apply_ite Updates.user_location,
    apply_ite Updates.preferred_provider, apply_ite Updates.urgency, ite_self]
  by_cases hb : truthyStr s.user_location <;> simp [hb, truthyStr_none]

/-- The `preferred_provider` entry of the updates dictionary: set
whenever the extraction reports a (truthy) provider name, regardless of
the state. -/
theorem extractUpdates_preferred_provider (s : CallState) (ex : Extracted) :
    (extractUpdates s ex).preferred_provider =
      if truthyStr ex.provider_name then ex.provider_name else none := by
  unfold extractUpdates
  dsimp only
  simp only [apply_ite Updates.preferred_provider, ite_self]

/-- The `urgency` entry of the updates dictionary: set whenever the
extraction reports a (truthy) urgency, regardless of the state. -/
theorem extractUpdates_urgency (s : CallState) (ex : Extracted) :
    (extractUpdates s ex).urgency =
      if truthyStr ex.urgency then ex.urgency else none := by
  unfold extractUpdates
  dsimp only
  simp only [apply_ite Updates.urgency, ite_self]

/-- The `radius_km` entry of the updates dictionary: the extracted
radius when the state radius is falsy, overridden by the
close/near/nearby cap, then defaulted to 5 when still falsy. -/
theorem extractUpdates_radius_km (s : CallState) (ex : Extracted) :
    (extractUpdates s ex).radius_km =
      (let r₁ := if truthyNum ex.radius_km && !truthyNum s.radius_km
          then ex.radius_km else none
       let r₂ := if truthyStr ex.location_preference then
            (if closeHint (ex.location_preference.getD "") then
              some (min (s.radius_km.getD 5) 3) else r₁)
          else r₁
       if !truthyNum r₂ && !truthyNum s.radius_km then some 5 else r₂) := by
  unfold extractUpdates
  dsimp only
  simp only [apply_ite Updates.specialty, apply_ite Updates.time_window,
    apply_ite Updates.radius_km, apply_ite Updates.user_location,
    apply_ite Updates.preferred_provider, apply_ite Updates.urgency, ite_self]

/-- C9 (amended): `node_extract_preferences` never blocks the pipeline.
On empty user text or extraction failure it fills exactly the
(Python-falsy) unset fields among `specialty`, `time_window`,
`radius_km`, `user_location` with the fixed defaults and changes
nothing else.  On successful extraction it never overwrites truthy
caller-supplied values of those four fields — except the
close/near/nearby radius cap — and always leaves all four truthy; but
extracted `provider_name` and `urgency` are stored unconditionally,
overwriting any caller-supplied `preferred_provider`/`urgency`. -/
theorem claim_extract_preferences_amended
    (extract : String → Option Extracted) (s : CallState) :
    ((pyStrip (s.user_text.getD "") == "") = true ∨
        extract (s.user_text.getD "") = none →
      (node_extract_preferences extract s).specialty =
        (if truthyStr s.specialty then s.specialty else some "dentist") ∧
      (node_extract_preferences extract s).time_window =
        (if truthyStr s.time_window then s.time_window else some "this week") ∧
      (node_extract_preferences extract s).radius_km =
        (if truthyNum s.radius_km then s.radius_km else some 5) ∧
      (node_extract_preferences extract s).user_location =
        (if truthyStr s.user_location then s.user_location else some "Berlin") ∧
      (node_extract_preferences extract s).preferred_provider = s.preferred_provider ∧
      (node_extract_preferences extract s).urgency = s.urgency ∧
      (node_extract_preferences extract s).error = s.error) ∧
    (∀ ex, (pyStrip (s.user_text.getD "") == "") = false →
        extract (s.user_text.getD "") = some ex →
      (truthyStr s.specialty = true →
          (node_extract_preferences extract s).specialty = s.specialty) ∧
      (truthyStr s.time_window = true →
          (node_extract_preferences extract s).time_window = s.time_window) ∧
      (truthyStr s.user_location = true →
          (node_extract_preferences extract s).user_location = s.user_location) ∧
      (truthyNum s.radius_km = true →
          (truthyStr ex.location_preference &&
            closeHint (ex.location_preference.getD "")) = false →
          (node_extract_preferences extract s).radius_km = s.radius_km) ∧
      (truthyNum s.radius_km = true → truthyStr ex.location_preference = true →
          closeHint (ex.location_preference.getD "") = true →
          (node_extract_preferences extract s).radius_km =
            some (min (s.radius_km.getD 5) 3)) ∧
      (truthyStr ex.provider_name = true →
          (node_extract_preferences extract s).preferred_provider = ex.provider_name) ∧
      (truthyStr ex.provider_name = false →
          (node_extract_preferences extract s).preferred_provider =
            s.preferred_provider) ∧
      (truthyStr ex.urgency = true →
          (node_extract_preferences extract s).urgency = ex.urgency) ∧
      truthyStr (node_extract_preferences extract s).specialty = true ∧
      truthyStr (node_extract_preferences extract s).time_window = true ∧
      truthyNum (node_extract_preferences extract s).radius_km = true ∧
      truthyStr (node_extract_preferences extract s).user_location = true) := by
  constructor
  · intro hfail
    have hout : node_extract_preferences extract s = defaultsFill s := by
      unfold node_extract_preferences
      dsimp only
      rcases hfail with h | h
      · simp [h]
      · by_cases hstrip : (pyStrip (s.user_text.getD "") == "") = true <;>
          simp [hstrip, h]
    rw [hout]
    refine ⟨?_, ?_, ?_, ?_, rfl, rfl, rfl⟩ <;> simp [defaultsFill]
  · intro ex hstrip hex
    have hout : node_extract_preferences extract s =
        applyUpdates s (extractUpdates s ex) := by
      unfold node_extract_preferences
      dsimp only
      simp [hstrip, hex]
    rw [hout]
    refine ⟨?_, ?_, ?_, ?_, ?_, ?_, ?_, ?_, ?_, ?_, ?_, ?_⟩
    · intro hb
      simp [applyUpdates, extractUpdates_specialty, hb]
    · intro hb
      simp [applyUpdates, extractUpdates_time_window, hb]
    · intro hb
      simp [applyUpdates, extractUpdates_user_location, hb]
    · intro hb hcap
      simp only [applyUpdates, extractUpdates_radius_km]
      by_cases ha4 : truthyStr ex.location_preference
      · have hc4 : closeHint (ex.location_preference.getD "") = false := by
          rcases Bool.and_eq_false_iff.mp hcap with h | h
          · rw [ha4] at h; exact absurd h (by decide)
          · exact h
        simp [ha4, hc4, hb, truthyNum_none]
      · simp [ha4, hb, truthyNum_none]
    · intro hb ha4 hc4
      simp only [applyUpdates, extractUpdates_radius_km]
      have hq' : truthyNum (some (s.radius_km.getD 5 ⊓ 3)) = true := by
        rcases hq : s.radius_km with _ | q
        · rw [hq] at hb; exact absurd hb (by decide)
        · have hbq : truthyNum (some q) = true := by rw [← hq]; exact hb
          simpa using truthyNum_min3 q hbq
      simp [ha4, hc4, hb, hq', isSome_of_truthyNum hq']
    · intro ha
      simp [applyUpdates, extractUpdates_preferred_provider, ha, isSome_of_truthyStr ha]
    · intro ha
      simp [applyUpdates, extractUpdates_preferred_provider, ha]
    · intro ha
      simp [applyUpdates, extractUpdates_urgency, ha, isSome_of_truthyStr ha]
    · by_cases hb : truthyStr s.specialty
      · simp [applyUpdates, extractUpdates_specialty, hb]
      · by_cases ha : truthyStr ex.specialty
        · simp [applyUpdates, extractUpdates_specialty, hb, ha, isSome_of_truthyStr ha]
        · simp [applyUpdates, extractUpdates_specialty, hb, ha]
          decide
    · by_cases hb : truthyStr s.time_window
      · simp [applyUpdates, extractUpdates_time_window, hb]
      · by_cases ha : truthyStr ex.time_window
        · simp [applyUpdates, extractUpdates_time_window, hb, ha, isSome_of_truthyStr ha]
        · simp [applyUpdates, extractUpdates_time_window, hb, ha]
          decide
    · simp only [applyUpdates, extractUpdates_radius_km]
      by_cases hb : truthyNum s.radius_km
      · by_cases ha4 : truthyStr ex.location_preference
        · by_cases hc4 : closeHint (ex.location_preference.getD "")
          · have hq' : truthyNum (some (s.radius_km.getD 5 ⊓ 3)) = true := by
              rcases hq : s.radius_km with _ | q
              · rw [hq] at hb; exact absurd hb (by decide)
              · have hbq : truthyNum (some q) = true := by rw [← hq]; exact hb
                simpa using truthyNum_min3 q hbq
            simp [ha4, hc4, hb, hq', isSome_of_truthyNum hq']
          · simp [ha4, hc4, hb, truthyNum_none]
        · simp [ha4, hb, truthyNum_none]
      · by_cases ha4 : truthyStr ex.location_preference
        · by_cases hc4 : closeHint (ex.location_preference.getD "")
          · by_cases hr2 : truthyNum (some (s.radius_km.getD 5 ⊓ 3))
            · simp [ha4, hc4, hb, hr2, isSome_of_truthyNum hr2]
            · simp [ha4, hc4, hb, hr2]
              decide
          · by_cases ha3 : truthyNum ex.radius_km
            · simp [ha4, hc4, hb, ha3, isSome_of_truthyNum ha3]
            · simp [ha4, hc4, hb, ha3, truthyNum_none]
              decide
        · by_cases ha3 : truthyNum ex.radius_km
          · simp [ha4, hb, ha3, isSome_of_truthyNum ha3]
          · simp [ha4, hb, ha3, truthyNum_none]
            decide
    · by_cases hb : truthyStr s.user_location
      · simp [applyUpdates, extractUpdates_user_location, hb]
      · simp [applyUpdates, extractUpdates_user_location, hb]
        decide

/-- C9 counterexample: a caller-supplied `preferred_provider` is
overwritten by an extracted provider name — refuting "never overwrites
a caller-supplied value" as stated. -/
theorem claim_extract_preferences_cex :
    ({ user_text := some "need a dentist", preferred_provider := some "Dr. Smith" }
        : CallState).preferred_provider = some "Dr. Smith" ∧
    (node_extract_preferences (fun _ => some { provider_name := some "Other Clinic" })
        { user_text := some "need a dentist"
          preferred_provider := some "Dr. Smith" }).preferred_provider
      = some "Other Clinic" := by
  exact ⟨rfl, by decide⟩

/-- Witness for C9: extraction failure on an unset record fills the
default specialty; a successful extraction with a "close by" hint caps
the caller's 10 km radius at 3 and overwrites the preferred provider. -/
theorem claim_extract_preferences_amended_witness :
    (node_extract_preferences (fun _ => none) { user_text := some "hi" }).specialty =
      (if truthyStr ({ user_text := some "hi" } : CallState).specialty then
        ({ user_text := some "hi" } : CallState).specialty else some "dentist") ∧
    (node_extract_preferences
        (fun _ => some { provider_name := some "Other Clinic"
                         location_preference := some "close by" })
        { user_text := some "dentist close by", radius_km := some 10
          preferred_provider := some "Dr. Smith" }).radius_km =
      some (min ((some (10 : ℚ)).getD 5) 3) ∧
    (node_extract_preferences
        (fun _ => some { provider_name := some "Other Clinic"
                         location_preference := some "close by" })
        { user_text := some "dentist close by", radius_km := some 10
          preferred_provider := some "Dr. Smith" }).preferred_provider =
      some "Other Clinic" :=
  ⟨((claim_extract_preferences_amended (fun _ => none)
        { user_text := some "hi" }).1 (Or.inr rfl)).1,
   (((claim_extract_preferences_amended
        (fun _ => some { provider_name := some "Other Clinic"
                         location_preference := some "close by" })
        { user_text := some "dentist close by", radius_km := some 10
          preferred_provider := some "Dr. Smith" }).2
      { provider_name := some "Other Clinic", location_preference := some "close by" }
      (by decide) rfl).2.2.2.2.1 (by decide) (by decide) (by decide)),
   (((claim_extract_preferences_amended
        (fun _ => some { provider_name := some "Other Clinic"
                         location_preference := some "close by" })
        { user_text := some "dentist close by", radius_km := some 10
          preferred_provider := some "Dr. Smith" }).2
      { provider_name := some "Other Clinic", location_preference := some "close by" }
      (by decide) rfl).2.2.2.2.2.1 (by decide))⟩

end CallPilot
